import Mathlib

/-!
Shallow embedding of the savepagenow-rs crate (src/lib.rs), an async client
for the Save Page Now 2 API, together with proofs about the embedded
definitions.  Pure protocol logic (JSON decoding, form encoding, status-code
dispatch, header construction) is translated directly from the source;
the HTTP transport and the system clock are modelled as explicit inputs.
-/

namespace Spn

/-- Model of Rust std::time::Duration: whole seconds plus a sub-second
nanosecond part.  The Rust invariant nanos < 1_000_000_000 is stated as a
hypothesis where a proof needs it. -/
structure Duration where
  secs : Nat
  nanos : Nat
  deriving DecidableEq, Repr

/-- Duration::as_secs — the whole-second count, discarding the
sub-second part. -/
def Duration.as_secs (d : Duration) : Nat := d.secs

/-- Duration::from_secs. -/
def Duration.from_secs (n : Nat) : Duration := ⟨n, 0⟩

/-- Duration::from_millis. -/
def Duration.from_millis (ms : Nat) : Duration :=
  ⟨ms / 1000, (ms % 1000) * 1000000⟩

/-- Model of a parsed JSON value (serde_json::Value).  Objects are lists of
key-value bindings with distinct keys (serde_json object semantics); lookup
takes the first binding.  JSON numbers are carried as rationals, which is
faithful for every use in this crate (no claim depends on f64 rounding). -/
inductive Json where
  | null : Json
  | bool (b : Bool) : Json
  | num (q : ℚ) : Json
  | str (s : String) : Json
  | arr (elems : List Json) : Json
  | obj (fields : List (String × Json)) : Json

/-- Lookup of a field in a JSON object by key (serde_json Map::get). -/
def getField : List (String × Json) → String → Option Json
  | [], _ => none
  | (k, v) :: rest, key => if k = key then some v else getField rest key

/-- serde_json::Value::as_object. -/
def Json.as_object : Json → Option (List (String × Json))
  | .obj fields => some fields
  | _ => none

/-- serde_json::Value::as_str. -/
def Json.as_str : Json → Option String
  | .str s => some s
  | _ => none

/-- UTF-8 encoding of one character, as its list of bytes. -/
def charUtf8 (c : Char) : List Nat :=
  let n := c.toNat
  if n < 128 then [n]
  else if n < 2048 then
    [192 + n / 64, 128 + n % 64]
  else if n < 65536 then
    [224 + n / 4096, 128 + (n / 64) % 64, 128 + n % 64]
  else
    [240 + n / 262144, 128 + (n / 4096) % 64, 128 + (n / 64) % 64, 128 + n % 64]

/-- The UTF-8 byte sequence of a string (str::as_bytes in Rust). -/
def utf8Bytes (s : String) : List Nat :=
  s.data.flatMap charUtf8

/-- Validity of one byte of an HTTP header value, as checked by
http::HeaderValue::from_str: horizontal tab, or any byte that is at least
32 and is not the DEL byte 127. -/
def validHeaderByte (b : Nat) : Bool :=
  b = 9 || (32 ≤ b && b ≠ 127)

/-- Model of http::HeaderValue: the value string together with the
sensitive flag (HeaderValue::set_sensitive). -/
structure HeaderValue where
  value : String
  sensitive : Bool
  deriving DecidableEq, Repr

/-- The Debug rendering of a header value: a sensitive value prints as the
fixed word Sensitive, hiding its contents; a non-sensitive value prints
quoted.  (Escaping of special characters inside non-sensitive values is
elided; every non-sensitive header this crate builds is plain ASCII.) -/
def headerValueDebug (v : HeaderValue) : String :=
  if v.sensitive then "Sensitive" else "\"" ++ v.value ++ "\""

/-- Model of the error type of the crate, a boxed dynamic
std error trait object: a type-erased box.  The constructors
record which concrete Rust type the box holds, which is all a caller can
observe (by downcasting) besides the message:
  - reqwestErr: a reqwest::Error, from the question-mark conversions on
    send() and on Response::json(), and from ClientBuilder::build(); its
    timeout/decode character is only an internal kind, inspectable through
    methods such as is_timeout, not a distinct type;
  - boxedMsg: a boxed String, from format!(...).into() in the
    unexpected-status arms;
  - invalidResponse: a boxed String from SPN2SystemStatus::from_json,
    whose message renders as: invalid response: followed by the JSON
    (kept unrendered here);
  - headerErr: http::header::InvalidHeaderValue from
    HeaderValue::from_str in SPN2Client::new;
  - systemTimeErr: std::time::SystemTimeError from
    SystemTime::duration_since in get_user_status. -/
inductive Error where
  | reqwestErr (is_timeout : Bool) (is_decode : Bool) (msg : String) : Error
  | boxedMsg (s : String) : Error
  | invalidResponse (json : Json) : Error
  | headerErr : Error
  | systemTimeErr : Error

/-- The concrete Rust type held inside the boxed error, i.e. what a
caller could distinguish by downcasting.  Transport failures and body
decode failures are both reqwest::Error values. -/
def dynTypeName : Error → String
  | .reqwestErr _ _ _ => "reqwest::Error"
  | .boxedMsg _ => "alloc::string::String"
  | .invalidResponse _ => "alloc::string::String"
  | .headerErr => "http::header::value::InvalidHeaderValue"
  | .systemTimeErr => "std::time::SystemTimeError"

/-- reqwest::Error::is_timeout observed through a downcast of the boxed
error; false when the box does not hold a reqwest::Error. -/
def Error.timeoutFlag : Error → Bool
  | .reqwestErr t _ _ => t
  | _ => false

/-- http::StatusCode::canonical_reason, for the standard codes the http
crate knows. -/
def canonicalReason : Nat → Option String
  | 100 => some "Continue"
  | 101 => some "Switching Protocols"
  | 102 => some "Processing"
  | 200 => some "OK"
  | 201 => some "Created"
  | 202 => some "Accepted"
  | 203 => some "Non-Authoritative Information"
  | 204 => some "No Content"
  | 205 => some "Reset Content"
  | 206 => some "Partial Content"
  | 207 => some "Multi-Status"
  | 208 => some "Already Reported"
  | 226 => some "IM Used"
  | 300 => some "Multiple Choices"
  | 301 => some "Moved Permanently"
  | 302 => some "Found"
  | 303 => some "See Other"
  | 304 => some "Not Modified"
  | 305 => some "Use Proxy"
  | 307 => some "Temporary Redirect"
  | 308 => some "Permanent Redirect"
  | 400 => some "Bad Request"
  | 401 => some "Unauthorized"
  | 402 => some "Payment Required"
  | 403 => some "Forbidden"
  | 404 => some "Not Found"
  | 405 => some "Method Not Allowed"
  | 406 => some "Not Acceptable"
  | 407 => some "Proxy Authentication Required"
  | 408 => some "Request Timeout"
  | 409 => some "Conflict"
  | 410 => some "Gone"
  | 411 => some "Length Required"
  | 412 => some "Precondition Failed"
  | 413 => some "Payload Too Large"
  | 414 => some "URI Too Long"
  | 415 => some "Unsupported Media Type"
  | 416 => some "Range Not Satisfiable"
  | 417 => some "Expectation Failed"
  | 418 => some "I\x27m a teapot"
  | 421 => some "Misdirected Request"
  | 422 => some "Unprocessable Entity"
  | 423 => some "Locked"
  | 424 => some "Failed Dependency"
  | 426 => some "Upgrade Required"
  | 428 => some "Precondition Required"
  | 429 => some "Too Many Requests"
  | 431 => some "Request Header Fields Too Large"
  | 451 => some "Unavailable For Legal Reasons"
  | 500 => some "Internal Server Error"
  | 501 => some "Not Implemented"
  | 502 => some "Bad Gateway"
  | 503 => some "Service Unavailable"
  | 504 => some "Gateway Timeout"
  | 505 => some "HTTP Version Not Supported"
  | 506 => some "Variant Also Negotiates"
  | 507 => some "Insufficient Storage"
  | 508 => some "Loop Detected"
  | 510 => some "Not Extended"
  | 511 => some "Network Authentication Required"
  | _ => none

/-- The Display rendering of an http::StatusCode: the numeric code, a
space, and the canonical reason phrase (or a fixed placeholder). -/
def statusDisplay (code : Nat) : String :=
  toString code ++ " " ++ (canonicalReason code).getD "<unknown status code>"

/-- The authorization header value built by SPN2Client::new:
format LOW access_key colon secret. -/
def authHeaderString (api_access_key api_secret : String) : String :=
  "LOW " ++ api_access_key ++ ":" ++ api_secret

/-- Model of SPN2Client: the reqwest client reduces to its configured
default headers; the timeout field is the mutable per-request timeout. -/
structure SPN2Client where
  default_headers : List (String × HeaderValue)
  timeout : Duration
  deriving DecidableEq, Repr

/-- SPN2Client::new.  Builds the Authorization header with
HeaderValue::from_str (failing on invalid header bytes), marks it
sensitive, adds the Accept header, and builds the reqwest client.  The
underlying transport initialization, which can also fail, is the explicit
input build_outcome. -/
def SPN2Client.new (api_access_key api_secret : String) (timeout : Duration)
    (build_outcome : Except String Unit) : Except Error SPN2Client :=
  let auth := authHeaderString api_access_key api_secret
  if (utf8Bytes auth).all validHeaderByte then
    match build_outcome with
    | .error m => .error (.reqwestErr false false m)
    | .ok _ =>
        .ok { default_headers :=
                [("Authorization", ⟨auth, true⟩),
                 ("Accept", ⟨"application/json", false⟩)],
              timeout := timeout }
  else
    .error .headerErr

/-- SPN2Client::set_timeout. -/
def SPN2Client.set_timeout (c : SPN2Client) (timeout : Duration) : SPN2Client :=
  { c with timeout := timeout }

/-- serde decoding of one JSON value as a String. -/
def asString : Json → Except String String
  | .str s => .ok s
  | _ => .error "invalid type: expected a string"

/-- serde decoding of a JSON sequence element by element, in order. -/
def decodeStringList : List Json → Except String (List String)
  | [] => .ok []
  | x :: xs => do
      let s ← asString x
      let rest ← decodeStringList xs
      return s :: rest

/-- serde decoding of one JSON value as a Vec of Strings. -/
def asStringList : Json → Except String (List String)
  | .arr elems => decodeStringList elems
  | _ => .error "invalid type: expected a sequence"

/-- serde decoding of one JSON value as a usize: a non-negative integer. -/
def asUsize : Json → Except String Nat
  | .num q => if q.den = 1 ∧ 0 ≤ q.num then .ok q.num.toNat
              else .error "invalid type: expected an unsigned integer"
  | _ => .error "invalid type: expected an unsigned integer"

/-- serde decoding of a required String field of a struct. -/
def reqStrField (fields : List (String × Json)) (name : String) :
    Except String String :=
  match getField fields name with
  | none => .error ("missing field " ++ name)
  | some v => asString v

/-- serde decoding of an Option String field: an absent key or an explicit
null decodes as none, never as an empty string. -/
def optStrField (fields : List (String × Json)) (name : String) :
    Except String (Option String) :=
  match getField fields name with
  | none => .ok none
  | some .null => .ok none
  | some (.str s) => .ok (some s)
  | some _ => .error ("invalid type for field " ++ name)

/-- serde decoding of a required Vec of Strings field. -/
def reqStringListField (fields : List (String × Json)) (name : String) :
    Except String (List String) :=
  match getField fields name with
  | none => .error ("missing field " ++ name)
  | some v => asStringList v

/-- serde decoding of a required f64 field (the numeric value, carried as
a rational). -/
def reqNumField (fields : List (String × Json)) (name : String) :
    Except String ℚ :=
  match getField fields name with
  | none => .error ("missing field " ++ name)
  | some (.num q) => .ok q
  | some _ => .error ("invalid type for field " ++ name)

/-- serde decoding of a required usize field. -/
def reqUsizeField (fields : List (String × Json)) (name : String) :
    Except String Nat :=
  match getField fields name with
  | none => .error ("missing field " ++ name)
  | some v => asUsize v

/-- The SPN2 API response to a capture request. -/
structure SPN2CaptureResponse where
  url : String
  job_id : String
  deriving DecidableEq, Repr

/-- Derived serde Deserialize for SPN2CaptureResponse: both fields are
required strings; unknown fields are ignored. -/
def SPN2CaptureResponse.deserialize (j : Json) :
    Except String SPN2CaptureResponse :=
  match j.as_object with
  | none => .error "invalid type: expected a JSON object"
  | some fields => do
      let url ← reqStrField fields "url"
      let job_id ← reqStrField fields "job_id"
      return { url := url, job_id := job_id }

/-- The SPN2 API response to a capture status request: an internally
tagged enum over the discriminator field status. -/
inductive SPN2CaptureStatus where
  | Pending (resources : List String) : SPN2CaptureStatus
  | Error (exception : Option String) (status_ext : String) (message : String)
      (resources : List String) : SPN2CaptureStatus
  | Success (original_url : String) (screenshot : Option String)
      (timestamp : String) (duration_sec : ℚ) (resources : List String)
      (outlinks : List String) : SPN2CaptureStatus

/-- The serde rename of each variant, i.e. the status tag it corresponds
to on the wire. -/
def SPN2CaptureStatus.tag : SPN2CaptureStatus → String
  | .Pending _ => "pending"
  | .Error _ _ _ _ => "error"
  | .Success _ _ _ _ _ _ => "success"

/-- Derived serde Deserialize for the internally tagged enum
SPN2CaptureStatus (serde attribute tag status): the input must be a JSON
object whose status field is a string naming one of the three variants;
the remaining fields are decoded per the selected variant, with unknown
fields ignored; any other status value, a non-string status, or a missing
status fails decoding. -/
def SPN2CaptureStatus.deserialize (j : Json) :
    Except String SPN2CaptureStatus :=
  match j.as_object with
  | none => .error "invalid type: expected a JSON object"
  | some fields =>
    match getField fields "status" with
    | none => .error "missing field status"
    | some tagJson =>
      match tagJson.as_str with
      | none => .error "invalid type: the tag field status must be a string"
      | some s =>
        if s = "pending" then do
          let resources ← reqStringListField fields "resources"
          return .Pending resources
        else if s = "error" then do
          let exception ← optStrField fields "exception"
          let status_ext ← reqStrField fields "status_ext"
          let message ← reqStrField fields "message"
          let resources ← reqStringListField fields "resources"
          return .Error exception status_ext message resources
        else if s = "success" then do
          let original_url ← reqStrField fields "original_url"
          let screenshot ← optStrField fields "screenshot"
          let timestamp ← reqStrField fields "timestamp"
          let duration_sec ← reqNumField fields "duration_sec"
          let resources ← reqStringListField fields "resources"
          let outlinks ← reqStringListField fields "outlinks"
          return .Success original_url screenshot timestamp duration_sec
            resources outlinks
        else
          .error ("unknown variant " ++ s ++
            ", expected one of pending, error, success")

/-- The status tag a JSON value carries: the string value of the status
field of an object, when there is one. -/
def captureStatusTag (j : Json) : Option String :=
  (j.as_object.bind (fun fields => getField fields "status")).bind Json.as_str

/-- The SPN2 API response to a user status request. -/
structure SPN2UserStatus where
  available : Nat
  processing : Nat
  deriving DecidableEq, Repr

/-- Derived serde Deserialize for SPN2UserStatus: both fields are required
unsigned integers (usize). -/
def SPN2UserStatus.deserialize (j : Json) : Except String SPN2UserStatus :=
  match j.as_object with
  | none => .error "invalid type: expected a JSON object"
  | some fields => do
      let available ← reqUsizeField fields "available"
      let processing ← reqUsizeField fields "processing"
      return { available := available, processing := processing }

/-- The SPN2 API response to a system status request. -/
inductive SPN2SystemStatus where
  | Ok : SPN2SystemStatus
  | Issues (description : String) : SPN2SystemStatus
  | Critical : SPN2SystemStatus
  deriving DecidableEq, Repr

/-- SPN2SystemStatus::from_json: read the status field of a generic JSON
object as a string (failing with an invalid-response error when the value
is not an object, has no status field, or the field is not a string);
the literal string ok maps to Ok and any other string to Issues carrying
that string as the description. -/
def SPN2SystemStatus.from_json (json : Json) :
    Except Error SPN2SystemStatus :=
  match (json.as_object.bind (fun obj => getField obj "status")).bind
      Json.as_str with
  | none => .error (.invalidResponse json)
  | some s => if s = "ok" then .ok .Ok else .ok (.Issues s)

/-- serialize_bool_param: a boolean serializes as the integer 1 or 0,
which the form encoder renders as the corresponding decimal string. -/
def serialize_bool_param (b : Bool) : String :=
  if b then "1" else "0"

/-- serialize_duration_param: a set duration serializes as its
whole-second count (Duration::as_secs) rendered as a decimal string; an
unset one serializes as absent (and is skipped entirely by the
skip-if-none serde attribute on the field). -/
def serialize_duration_param : Option Duration → Option String
  | some d => some (toString d.as_secs)
  | none => none

/-- Optional-parameter struct of a capture request.  Field declaration
order matches the source; the serde derive serializes fields in this
order, booleans through serialize_bool_param, durations through
serialize_duration_param, and every optional field only when set. -/
structure SPN2CaptureRequestOptParams where
  capture_all : Bool := false
  capture_outlinks : Bool := false
  capture_screenshot : Bool := false
  delay_wb_availability : Bool := false
  force_get : Bool := false
  skip_first_archive : Bool := false
  outlinks_availability : Bool := false
  email_result : Bool := false
  if_not_archived_within : Option Duration := none
  js_behavior_timeout : Option Duration := none
  capture_cookie : Option String := none
  use_user_agent : Option String := none
  target_username : Option String := none
  target_password : Option String := none
  deriving DecidableEq, Repr

/-- A field that serde skips when its serialized value is absent. -/
def optPair (name : String) : Option String → List (String × String)
  | none => []
  | some v => [(name, v)]

/-- The key-value pairs the serde derive emits for
SPN2CaptureRequestOptParams, in field declaration order: the eight
booleans always, each optional field only when set. -/
def SPN2CaptureRequestOptParams.pairs (p : SPN2CaptureRequestOptParams) :
    List (String × String) :=
  [("capture_all", serialize_bool_param p.capture_all),
   ("capture_outlinks", serialize_bool_param p.capture_outlinks),
   ("capture_screenshot", serialize_bool_param p.capture_screenshot),
   ("delay_wb_availability", serialize_bool_param p.delay_wb_availability),
   ("force_get", serialize_bool_param p.force_get),
   ("skip_first_archive", serialize_bool_param p.skip_first_archive),
   ("outlinks_availability", serialize_bool_param p.outlinks_availability),
   ("email_result", serialize_bool_param p.email_result)]
  ++ optPair "if_not_archived_within"
      (serialize_duration_param p.if_not_archived_within)
  ++ optPair "js_behavior_timeout"
      (serialize_duration_param p.js_behavior_timeout)
  ++ optPair "capture_cookie" p.capture_cookie
  ++ optPair "use_user_agent" p.use_user_agent
  ++ optPair "target_username" p.target_username
  ++ optPair "target_password" p.target_password

/-- The key-value pairs of SPN2CaptureRequestParams: url first, then the
flattened optional parameters. -/
def SPN2CaptureRequestParams.pairs (url : String)
    (opt_params : SPN2CaptureRequestOptParams) : List (String × String) :=
  ("url", url) :: opt_params.pairs

/-- Uppercase hexadecimal digit. -/
def hexDigitChar (n : Nat) : Char :=
  if n < 10 then Char.ofNat (48 + n) else Char.ofNat (55 + n)

/-- Percent-encoding of one byte, with uppercase hex digits. -/
def percentEncodeByte (b : Nat) : String :=
  String.mk [Char.ofNat 37, hexDigitChar (b / 16), hexDigitChar (b % 16)]

/-- Whether the form encoder leaves a byte unchanged: ASCII alphanumerics
and the four bytes star, minus, dot, underscore. -/
def formSafeByte (b : Nat) : Bool :=
  (48 ≤ b && b ≤ 57) || (65 ≤ b && b ≤ 90) || (97 ≤ b && b ≤ 122) ||
  b = 42 || b = 45 || b = 46 || b = 95

/-- application/x-www-form-urlencoded encoding of one byte: safe bytes
unchanged, space as plus, everything else percent-encoded. -/
def formUrlencodeByte (b : Nat) : String :=
  if formSafeByte b then String.mk [Char.ofNat b]
  else if b = 32 then "+"
  else percentEncodeByte b

/-- application/x-www-form-urlencoded encoding of a string, over its UTF-8
bytes (the url crate form_urlencoded byte serializer used by
serde_urlencoded). -/
def formUrlencode (s : String) : String :=
  String.join ((utf8Bytes s).map formUrlencodeByte)

/-- The form-encoded body of a capture request: the serialized key-value
pairs, each key and value form-urlencoded, joined with equals and
ampersand (serde_urlencoded::to_string of SPN2CaptureRequestParams). -/
def SPN2CaptureRequestParams.encode (url : String)
    (opt_params : SPN2CaptureRequestOptParams) : String :=
  String.intercalate "&"
    ((SPN2CaptureRequestParams.pairs url opt_params).map
      (fun kv => formUrlencode kv.1 ++ "=" ++ formUrlencode kv.2))

/-- The endpoint URL constants of the crate. -/
def API_CAPTURE_URL : String := "https://web.archive.org/save"

/-- Capture status endpoint. -/
def API_CAPTURE_STATUS_URL : String := "https://web.archive.org/save/status"

/-- User status endpoint. -/
def API_USER_STATUS_URL : String := "https://web.archive.org/save/status/user"

/-- System status endpoint. -/
def API_SYSTEM_STATUS_URL : String :=
  "https://web.archive.org/save/status/system"

/-- A request as the client builds it, before it is handed to the
transport: method, URL, query parameters, headers (the client default
headers), the per-request timeout, and the body. -/
structure BuiltRequest where
  method : String
  url : String
  query : List (String × String)
  headers : List (String × HeaderValue)
  timeout : Duration
  body : String
  deriving DecidableEq, Repr

/-- A transport-level failure of a send: reqwest::Error, with its timeout
flag observable through is_timeout. -/
structure TransportFailure where
  is_timeout : Bool
  msg : String
  deriving DecidableEq, Repr

/-- An HTTP response as far as this client inspects it: the status code,
and the outcome of parsing the body as JSON (consulted only by the arms
that read the body). -/
structure HttpResponse where
  status : Nat
  bodyJson : Except String Json

/-- The outcome of one send on the transport. -/
abbrev SendResult := Except TransportFailure HttpResponse

/-- Reading of the system clock relative to the Unix epoch. -/
inductive SystemTimeReading where
  | afterEpoch (d : Duration) : SystemTimeReading
  | beforeEpoch (d : Duration) : SystemTimeReading
  deriving DecidableEq, Repr

/-- SystemTime::duration_since(UNIX_EPOCH): the elapsed duration when the
clock reads at or after the epoch, a SystemTimeError (propagated by the
question-mark operator) when it reads before. -/
def duration_since_epoch : SystemTimeReading → Except Error Duration
  | .afterEpoch d => .ok d
  | .beforeEpoch _ => .error .systemTimeErr

/-- Response::json::<T>: the body must parse as JSON and then decode as T;
either failure surfaces as a reqwest decode error. -/
def respJson {α : Type} (dec : Json → Except String α) (r : HttpResponse) :
    Except Error α :=
  match r.bodyJson with
  | .error m => .error (.reqwestErr false true m)
  | .ok j =>
    match dec j with
    | .error m => .error (.reqwestErr false true m)
    | .ok v => .ok v

/-- The error a method returns for a response status other than the
expected ones: format unexpected response status followed by the status
display, boxed as a String. -/
def unexpectedStatusError (status : Nat) : Error :=
  .boxedMsg ("unexpected response status: " ++ statusDisplay status)

/-- The request request_capture builds: a form-encoded POST to the capture
endpoint with the client timeout applied. -/
def request_capture_request (c : SPN2Client) (url : String)
    (opt_params : SPN2CaptureRequestOptParams) : BuiltRequest :=
  { method := "POST", url := API_CAPTURE_URL, query := [],
    headers := c.default_headers, timeout := c.timeout,
    body := SPN2CaptureRequestParams.encode url opt_params }

/-- The request get_capture_status builds: a GET to the capture status
endpoint with the job id appended after a slash. -/
def get_capture_status_request (c : SPN2Client) (job_id : String) :
    BuiltRequest :=
  { method := "GET", url := API_CAPTURE_STATUS_URL ++ "/" ++ job_id,
    query := [], headers := c.default_headers, timeout := c.timeout,
    body := "" }

/-- The request get_user_status builds: the current Unix time in whole
seconds is computed first (propagating a clock-before-epoch error before
anything is sent) and attached as the cache-busting query parameter. -/
def get_user_status_request (c : SPN2Client) (now : SystemTimeReading) :
    Except Error BuiltRequest := do
  let elapsed ← duration_since_epoch now
  let unix_secs := elapsed.as_secs
  return { method := "GET", url := API_USER_STATUS_URL,
           query := [("_t", toString unix_secs)],
           headers := c.default_headers, timeout := c.timeout, body := "" }

/-- The request get_system_status builds. -/
def get_system_status_request (c : SPN2Client) : BuiltRequest :=
  { method := "GET", url := API_SYSTEM_STATUS_URL, query := [],
    headers := c.default_headers, timeout := c.timeout, body := "" }

/-- Response handling of request_capture: a transport failure propagates
as the boxed reqwest error; on status 200 the body is decoded as
SPN2CaptureResponse; any other status yields the formatted
unexpected-status string error. -/
def request_capture_handle (send : SendResult) :
    Except Error SPN2CaptureResponse :=
  match send with
  | .error f => .error (.reqwestErr f.is_timeout false f.msg)
  | .ok resp =>
    if resp.status = 200 then respJson SPN2CaptureResponse.deserialize resp
    else .error (unexpectedStatusError resp.status)

/-- Response handling of get_capture_status: on status 200 the body is
decoded as the tagged SPN2CaptureStatus; any other status yields the
formatted unexpected-status string error. -/
def get_capture_status_handle (send : SendResult) :
    Except Error SPN2CaptureStatus :=
  match send with
  | .error f => .error (.reqwestErr f.is_timeout false f.msg)
  | .ok resp =>
    if resp.status = 200 then respJson SPN2CaptureStatus.deserialize resp
    else .error (unexpectedStatusError resp.status)

/-- Response handling of get_user_status. -/
def get_user_status_handle (send : SendResult) :
    Except Error SPN2UserStatus :=
  match send with
  | .error f => .error (.reqwestErr f.is_timeout false f.msg)
  | .ok resp =>
    if resp.status = 200 then respJson SPN2UserStatus.deserialize resp
    else .error (unexpectedStatusError resp.status)

/-- Response handling of get_system_status: on status 200 the body is
parsed as generic JSON and mapped through SPN2SystemStatus::from_json; on
status 502 the result is Critical without consulting the body at all; any
other status yields the formatted unexpected-status string error. -/
def get_system_status_handle (send : SendResult) :
    Except Error SPN2SystemStatus :=
  match send with
  | .error f => .error (.reqwestErr f.is_timeout false f.msg)
  | .ok resp =>
    if resp.status = 200 then
      match resp.bodyJson with
      | .error m => .error (.reqwestErr false true m)
      | .ok j => SPN2SystemStatus.from_json j
    else if resp.status = 502 then .ok .Critical
    else .error (unexpectedStatusError resp.status)

/-- SPN2Client::request_capture, with the transport as an explicit
function from the built request to a send outcome. -/
def SPN2Client.request_capture (c : SPN2Client) (url : String)
    (opt_params : SPN2CaptureRequestOptParams)
    (transport : BuiltRequest → SendResult) :
    Except Error SPN2CaptureResponse :=
  request_capture_handle (transport (request_capture_request c url opt_params))

/-- SPN2Client::get_capture_status. -/
def SPN2Client.get_capture_status (c : SPN2Client) (job_id : String)
    (transport : BuiltRequest → SendResult) :
    Except Error SPN2CaptureStatus :=
  get_capture_status_handle (transport (get_capture_status_request c job_id))

/-- SPN2Client::get_user_status: the clock is read first; a
clock-before-epoch error returns before the transport is used. -/
def SPN2Client.get_user_status (c : SPN2Client) (now : SystemTimeReading)
    (transport : BuiltRequest → SendResult) :
    Except Error SPN2UserStatus := do
  let req ← get_user_status_request c now
  get_user_status_handle (transport req)

/-- SPN2Client::get_system_status. -/
def SPN2Client.get_system_status (c : SPN2Client)
    (transport : BuiltRequest → SendResult) :
    Except Error SPN2SystemStatus :=
  get_system_status_handle (transport (get_system_status_request c))

/-- Rendering of a header map in a Debug representation; sensitive values
render through headerValueDebug, i.e. as the word Sensitive. -/
def renderHeaders (headers : List (String × HeaderValue)) : String :=
  String.intercalate ", "
    (headers.map (fun kv => kv.1 ++ ": " ++ headerValueDebug kv.2))

/-- The Debug rendering of the capture request builder that
request_capture prints to stderr.  The model conservatively includes the
client default headers in the rendering (the real rendering shows method,
target URL and request headers; credentials could only ever appear through
the header map, where the sensitive flag makes the Authorization value
render as Sensitive). -/
def requestCaptureDebug (c : SPN2Client) : String :=
  "RequestBuilder method: POST, url: " ++ API_CAPTURE_URL ++
  ", headers: " ++ renderHeaders c.default_headers

/-- One client operation, for quantifying over call sequences. -/
inductive Operation where
  | requestCapture (url : String) (opt_params : SPN2CaptureRequestOptParams) :
      Operation
  | getCaptureStatus (job_id : String) : Operation
  | getUserStatus (now : SystemTimeReading) : Operation
  | getSystemStatus : Operation

/-- Everything the library writes to any log or debug stream while
executing one operation: request_capture prints the Debug rendering of its
request builder to stderr; the other three methods print nothing. -/
def loggedOutput (c : SPN2Client) : Operation → List String
  | .requestCapture _ _ => [requestCaptureDebug c]
  | .getCaptureStatus _ => []
  | .getUserStatus _ => []
  | .getSystemStatus => []

/-- A list of string literals decodes verbatim as a list of strings. -/
theorem decodeStringList_map_str (res : List String) :
    decodeStringList (res.map Json.str) = Except.ok res := by
  induction res with
  | nil => rfl
  | cons a l ih =>
      simp [decodeStringList, asString, ih]
      rfl

/-- A successfully constructed client carries exactly the sensitive
Authorization header and the Accept header. -/
theorem new_ok_headers (k s : String) (t : Duration) (b : Except String Unit)
    (c : SPN2Client) (h : SPN2Client.new k s t b = .ok c) :
    c.default_headers =
      [("Authorization", ⟨authHeaderString k s, true⟩),
       ("Accept", ⟨"application/json", false⟩)] := by
  cases b with
  | error m =>
      simp only [SPN2Client.new] at h
      split at h <;> simp at h
  | ok u =>
      simp only [SPN2Client.new] at h
      split at h
      · injection h with h2
        rw [← h2]
      · simp at h

/-- Claim C3: form-encoding the capture request parameters with url
example.com and options having all eight booleans true except
email_result false, if_not_archived_within of one second, use_user_agent
Dummy and all other optionals unset produces exactly the expected byte
string: url first, fields in declaration order, booleans as 1 and 0,
unset optionals omitted entirely. -/
theorem encode_capture_request_roundtrip :
    SPN2CaptureRequestParams.encode "example.com"
      { capture_all := true, capture_outlinks := true,
        capture_screenshot := true, delay_wb_availability := true,
        force_get := true, skip_first_archive := true,
        outlinks_availability := true, email_result := false,
        if_not_archived_within := some (Duration.from_secs 1),
        js_behavior_timeout := none, capture_cookie := none,
        use_user_agent := some "Dummy", target_username := none,
        target_password := none } =
    "url=example.com&capture_all=1&capture_outlinks=1&capture_screenshot=1&delay_wb_availability=1&force_get=1&skip_first_archive=1&outlinks_availability=1&email_result=0&if_not_archived_within=1&use_user_agent=Dummy" := by
  rfl

/-- Claim C9: a set duration option is encoded as its whole-second count,
truncating toward zero, so the sub-second part is discarded: the encoded
value of a duration with second count secs is the decimal string for secs,
secs is the truncated quotient of the total nanosecond count by ten to the
ninth, the encoder emits exactly that pair for both duration fields, and a
1500 millisecond duration encodes as 1. -/
theorem duration_params_truncate (p : SPN2CaptureRequestOptParams)
    (d : Duration) (hn : d.nanos < 1000000000) :
    serialize_duration_param (some d) = some (toString d.secs) ∧
    d.secs = (d.secs * 1000000000 + d.nanos) / 1000000000 ∧
    (p.if_not_archived_within = some d →
      ("if_not_archived_within", toString d.secs) ∈ p.pairs) ∧
    (p.js_behavior_timeout = some d →
      ("js_behavior_timeout", toString d.secs) ∈ p.pairs) ∧
    serialize_duration_param (some (Duration.from_millis 1500)) = some "1" := by
  refine ⟨rfl, by omega, ?_, ?_, rfl⟩
  · intro h
    simp [SPN2CaptureRequestOptParams.pairs, h, serialize_duration_param,
      optPair, Duration.as_secs]
  · intro h
    simp [SPN2CaptureRequestOptParams.pairs, h, serialize_duration_param,
      optPair, Duration.as_secs]

/-- Witness for claim C9 at a concrete duration of 1.5 seconds set as
if_not_archived_within. -/
theorem duration_params_truncate_witness :
    ("if_not_archived_within", toString (1 : Nat)) ∈
      SPN2CaptureRequestOptParams.pairs
        { if_not_archived_within := some (Duration.from_millis 1500) } :=
  (duration_params_truncate
    { if_not_archived_within := some (Duration.from_millis 1500) }
    (Duration.from_millis 1500) (by decide)).2.2.1 rfl

/-- Claim C10: get_user_status computes the cache-busting query value as
the whole seconds elapsed since the Unix epoch at call time (discarding
the sub-second part), and when the system clock reads earlier than the
epoch it returns the propagated clock error, without reaching the
transport at all. -/
theorem get_user_status_clock (c : SPN2Client) (secs nanos : Nat)
    (d : Duration) :
    get_user_status_request c (.afterEpoch ⟨secs, nanos⟩) = .ok
      { method := "GET", url := API_USER_STATUS_URL,
        query := [("_t", toString secs)], headers := c.default_headers,
        timeout := c.timeout, body := "" } ∧
    get_user_status_request c (.beforeEpoch d) = .error .systemTimeErr ∧
    (∀ transport, SPN2Client.get_user_status c (.beforeEpoch d) transport =
      .error .systemTimeErr) := by
  refine ⟨rfl, rfl, fun transport => ?_⟩
  simp [SPN2Client.get_user_status, get_user_status_request,
    duration_since_epoch]
  rfl

/-- Witness for claim C10 at a clock reading of 7 seconds and 999999999
nanoseconds past the epoch: the query value is 7, the sub-second part
discarded. -/
theorem get_user_status_clock_witness :
    get_user_status_request ⟨[], ⟨5, 0⟩⟩
      (.afterEpoch ⟨7, 999999999⟩) = .ok
      { method := "GET", url := API_USER_STATUS_URL,
        query := [("_t", toString (7 : Nat))], headers := [],
        timeout := ⟨5, 0⟩, body := "" } :=
  (get_user_status_clock ⟨[], ⟨5, 0⟩⟩ 7 999999999 ⟨0, 0⟩).1

/-- Claim C8: set_timeout replaces only the timeout of the client: the new
timeout is what every subsequently built request carries, and the header
configuration fixed at construction is unchanged. -/
theorem set_timeout_frame (c : SPN2Client) (t : Duration) :
    (c.set_timeout t).timeout = t ∧
    (c.set_timeout t).default_headers = c.default_headers ∧
    (∀ url p, (request_capture_request (c.set_timeout t) url p).timeout = t) ∧
    (∀ job_id,
      (get_capture_status_request (c.set_timeout t) job_id).timeout = t) ∧
    (∀ now req, get_user_status_request (c.set_timeout t) now = .ok req →
      req.timeout = t) ∧
    (get_system_status_request (c.set_timeout t)).timeout = t := by
  refine ⟨rfl, rfl, fun url p => rfl, fun job_id => rfl, ?_, rfl⟩
  intro now req h
  cases now with
  | afterEpoch d =>
      simp [get_user_status_request, duration_since_epoch] at h
      rw [← h]
      rfl
  | beforeEpoch d =>
      simp [get_user_status_request, duration_since_epoch] at h

/-- Witness for claim C8: a concrete client, new timeout and clock
reading. -/
theorem set_timeout_frame_witness :
    (BuiltRequest.mk "GET" API_USER_STATUS_URL [("_t", toString (7 : Nat))]
      [] ⟨9, 0⟩ "").timeout = (⟨9, 0⟩ : Duration) :=
  (set_timeout_frame ⟨[], ⟨1, 0⟩⟩ ⟨9, 0⟩).2.2.2.2.1
    (.afterEpoch ⟨7, 300⟩) _ rfl

/-- Claim C5: for every access key and secret, client construction either
succeeds or returns an error (the embedding is a total function, so no
panic is possible); in particular, when the combined authorization header
value contains a byte invalid for a header value, new returns the
invalid-header configuration error, and when all bytes are valid the
outcome is success exactly when the transport builds. -/
theorem new_never_panics (k s : String) (t : Duration)
    (b : Except String Unit) :
    ((∃ c, SPN2Client.new k s t b = .ok c) ∨
      (∃ e, SPN2Client.new k s t b = .error e)) ∧
    ((utf8Bytes (authHeaderString k s)).all validHeaderByte = false →
      SPN2Client.new k s t b = .error .headerErr) ∧
    ((utf8Bytes (authHeaderString k s)).all validHeaderByte = true →
      b = .ok () →
      SPN2Client.new k s t b = .ok
        { default_headers :=
            [("Authorization", ⟨authHeaderString k s, true⟩),
             ("Accept", ⟨"application/json", false⟩)],
          timeout := t }) ∧
    (∀ m, (utf8Bytes (authHeaderString k s)).all validHeaderByte = true →
      b = .error m →
      SPN2Client.new k s t b = .error (.reqwestErr false false m)) := by
  refine ⟨?_, ?_, ?_, ?_⟩
  · cases h : SPN2Client.new k s t b with
    | ok c => exact .inl ⟨c, rfl⟩
    | error e => exact .inr ⟨e, rfl⟩
  · intro h
    simp [SPN2Client.new, h]
  · intro h hb
    simp [SPN2Client.new, h, hb]
  · intro m h hb
    simp [SPN2Client.new, h, hb]

/-- Witness for claim C5: an access key containing a newline, which is an
invalid header byte, makes construction fail with the configuration
error. -/
theorem new_never_panics_witness :
    SPN2Client.new "a\nb" "secret" ⟨5, 0⟩ (.ok ()) =
      .error Error.headerErr :=
  (new_never_panics "a\nb" "secret" ⟨5, 0⟩ (.ok ())).2.1 (by decide)

/-- Binding an Except computation succeeds only through a success of its
first stage. -/
theorem except_ok_of_bind {γ α β : Type} {e : Except γ α}
    {k : α → Except γ β} {v : β} (h : e >>= k = Except.ok v) :
    ∃ a, e = Except.ok a ∧ k a = Except.ok v := by
  cases e with
  | error m => exact Except.noConfusion h
  | ok a => exact ⟨a, rfl, h⟩

/-- A pure Except computation returns exactly its value. -/
theorem except_pure_ok {γ α : Type} {a v : α}
    (h : (pure a : Except γ α) = Except.ok v) : a = v :=
  Except.ok.inj h

/-- Binding a successful Except computation runs the continuation. -/
theorem except_bind_ok {γ α β : Type} (a : α) (k : α → Except γ β) :
    (Except.ok a : Except γ α) >>= k = k a := rfl

/-- Claim C1: get_system_status maps an HTTP 200 response by parsing the
body as a generic JSON object: a string status field equal to the literal
ok gives Ok, any other string s gives Issues with description s, and a
missing string-valued status field gives a decode error; HTTP 502 gives
Critical for every body, parseable or not, so no body parsing is needed;
and every other HTTP status yields an error. -/
theorem get_system_status_mapping (st : Nat) (b : Except String Json) :
    (∀ fields, b = .ok (.obj fields) →
      getField fields "status" = some (.str "ok") →
      get_system_status_handle (.ok ⟨200, b⟩) = .ok .Ok) ∧
    (∀ fields s, b = .ok (.obj fields) →
      getField fields "status" = some (.str s) → s ≠ "ok" →
      get_system_status_handle (.ok ⟨200, b⟩) = .ok (.Issues s)) ∧
    (∀ j, b = .ok j →
      (j.as_object.bind (fun obj => getField obj "status")).bind Json.as_str
        = none →
      get_system_status_handle (.ok ⟨200, b⟩) =
        .error (.invalidResponse j)) ∧
    (∀ m, b = .error m →
      get_system_status_handle (.ok ⟨200, b⟩) =
        .error (.reqwestErr false true m)) ∧
    (get_system_status_handle (.ok ⟨502, b⟩) = .ok .Critical) ∧
    (st ≠ 200 → st ≠ 502 →
      get_system_status_handle (.ok ⟨st, b⟩) =
        .error (unexpectedStatusError st)) := by
  refine ⟨?_, ?_, ?_, ?_, ?_, ?_⟩
  · intro fields hb hs
    subst hb
    simp [get_system_status_handle, SPN2SystemStatus.from_json,
      Json.as_object, hs, Json.as_str]
  · intro fields s hb hs hne
    subst hb
    simp [get_system_status_handle, SPN2SystemStatus.from_json,
      Json.as_object, hs, Json.as_str, hne]
  · intro j hb hnone
    subst hb
    simp [get_system_status_handle, SPN2SystemStatus.from_json, hnone]
  · intro m hb
    subst hb
    simp [get_system_status_handle]
  · rfl
  · intro h200 h502
    simp [get_system_status_handle, h200, h502]

/-- Witness for claim C1: a body whose status field is the literal ok
decodes to Ok on HTTP 200. -/
theorem get_system_status_mapping_witness :
    get_system_status_handle
      (Except.ok ⟨200, Except.ok (Json.obj [("status", Json.str "ok")])⟩) =
      Except.ok SPN2SystemStatus.Ok :=
  (get_system_status_mapping 0
    (Except.ok (Json.obj [("status", Json.str "ok")]))).1
    [("status", Json.str "ok")] rfl rfl

/-- Claim C6: decoding a JSON object with status error yields the Error
variant; when the exception key is absent from the input the decoded
exception is none, never an empty string; status_ext, message and
resources are carried over as given. -/
theorem error_variant_decode (fields : List (String × Json))
    (ext msg : String) (res : List String)
    (hstatus : getField fields "status" = some (.str "error"))
    (hexc : getField fields "exception" = none)
    (hse : getField fields "status_ext" = some (.str ext))
    (hmsg : getField fields "message" = some (.str msg))
    (hres : getField fields "resources" = some (.arr (res.map Json.str))) :
    SPN2CaptureStatus.deserialize (.obj fields) =
      .ok (.Error none ext msg res) := by
  simp [SPN2CaptureStatus.deserialize, Json.as_object, hstatus, Json.as_str,
    optStrField, hexc, reqStrField, hse, hmsg, asString, reqStringListField,
    hres, asStringList, decodeStringList_map_str, except_bind_ok]

/-- Witness for claim C6 at a concrete error-status JSON object without
an exception field. -/
theorem error_variant_decode_witness :
    SPN2CaptureStatus.deserialize
      (Json.obj
        [("status", Json.str "error"),
         ("status_ext", Json.str "error:invalid-host-resolution"),
         ("job_id", Json.str "2546c79b"),
         ("message", Json.str "cannot resolve host"),
         ("resources", Json.arr [])]) =
      Except.ok (SPN2CaptureStatus.Error none
        "error:invalid-host-resolution" "cannot resolve host" []) :=
  error_variant_decode _ _ _ [] rfl rfl rfl rfl rfl

/-- Claim C2: decoding a capture-status JSON object dispatches purely on
the status field: every successful decode carries the variant named by the
status string, a pending status with well-typed fields decodes to Pending,
and every input whose status value is any string other than pending, error
or success, is not a string, or is absent fails decoding with an error
rather than defaulting to any variant. -/
theorem capture_status_dispatch :
    (∀ j v, SPN2CaptureStatus.deserialize j = .ok v →
      captureStatusTag j = some v.tag) ∧
    (∀ j s, captureStatusTag j = some s → s ≠ "pending" → s ≠ "error" →
      s ≠ "success" →
      SPN2CaptureStatus.deserialize j =
        .error ("unknown variant " ++ s ++
          ", expected one of pending, error, success")) ∧
    (∀ j, captureStatusTag j = none →
      ∃ m, SPN2CaptureStatus.deserialize j = .error m) ∧
    (∀ fields res, getField fields "status" = some (.str "pending") →
      getField fields "resources" = some (.arr (res.map Json.str)) →
      SPN2CaptureStatus.deserialize (.obj fields) = .ok (.Pending res)) := by
  refine ⟨?_, ?_, ?_, ?_⟩
  · intro j v h
    cases j with
    | null => simp [SPN2CaptureStatus.deserialize, Json.as_object] at h
    | bool b => simp [SPN2CaptureStatus.deserialize, Json.as_object] at h
    | num q => simp [SPN2CaptureStatus.deserialize, Json.as_object] at h
    | str s => simp [SPN2CaptureStatus.deserialize, Json.as_object] at h
    | arr xs => simp [SPN2CaptureStatus.deserialize, Json.as_object] at h
    | obj fields =>
      simp only [SPN2CaptureStatus.deserialize, Json.as_object] at h
      cases hs : getField fields "status" with
      | none => rw [hs] at h; exact Except.noConfusion h
      | some tj =>
        rw [hs] at h
        cases tj with
        | null => exact Except.noConfusion h
        | bool b2 => exact Except.noConfusion h
        | num q => exact Except.noConfusion h
        | arr xs => exact Except.noConfusion h
        | obj fs => exact Except.noConfusion h
        | str s =>
          simp only [Json.as_str] at h
          by_cases hp : s = "pending"
          · subst hp
            rw [if_pos rfl] at h
            obtain ⟨r, -, hk⟩ := except_ok_of_bind h
            simp [captureStatusTag, Json.as_object, hs, Json.as_str,
              ← except_pure_ok hk, SPN2CaptureStatus.tag]
          · rw [if_neg hp] at h
            by_cases he : s = "error"
            · subst he
              rw [if_pos rfl] at h
              obtain ⟨x1, -, h1⟩ := except_ok_of_bind h
              obtain ⟨x2, -, h2⟩ := except_ok_of_bind h1
              obtain ⟨x3, -, h3⟩ := except_ok_of_bind h2
              obtain ⟨x4, -, h4⟩ := except_ok_of_bind h3
              simp [captureStatusTag, Json.as_object, hs, Json.as_str,
                ← except_pure_ok h4, SPN2CaptureStatus.tag]
            · rw [if_neg he] at h
              by_cases hsu : s = "success"
              · subst hsu
                rw [if_pos rfl] at h
                obtain ⟨x1, -, h1⟩ := except_ok_of_bind h
                obtain ⟨x2, -, h2⟩ := except_ok_of_bind h1
                obtain ⟨x3, -, h3⟩ := except_ok_of_bind h2
                obtain ⟨x4, -, h4⟩ := except_ok_of_bind h3
                obtain ⟨x5, -, h5⟩ := except_ok_of_bind h4
                obtain ⟨x6, -, h6⟩ := except_ok_of_bind h5
                simp [captureStatusTag, Json.as_object, hs, Json.as_str,
                  ← except_pure_ok h6, SPN2CaptureStatus.tag]
              · rw [if_neg hsu] at h
                exact Except.noConfusion h
  · intro j s htag hp he hsu
    cases j with
    | null => simp [captureStatusTag, Json.as_object] at htag
    | bool b => simp [captureStatusTag, Json.as_object] at htag
    | num q => simp [captureStatusTag, Json.as_object] at htag
    | str s2 => simp [captureStatusTag, Json.as_object] at htag
    | arr xs => simp [captureStatusTag, Json.as_object] at htag
    | obj fields =>
      simp only [captureStatusTag, Json.as_object, Option.some_bind] at htag
      cases hs : getField fields "status" with
      | none => rw [hs] at htag; exact Option.noConfusion htag
      | some tj =>
        rw [hs] at htag
        cases tj with
        | str s2 =>
          simp only [Json.as_str, Option.some_bind] at htag
          have hss : s2 = s := Option.some.inj htag
          subst hss
          simp [SPN2CaptureStatus.deserialize, Json.as_object, hs,
            Json.as_str, hp, he, hsu]
        | null => simp [Json.as_str] at htag
        | bool b2 => simp [Json.as_str] at htag
        | num q => simp [Json.as_str] at htag
        | arr xs => simp [Json.as_str] at htag
        | obj fs => simp [Json.as_str] at htag
  · intro j htag
    cases j with
    | null => exact ⟨_, rfl⟩
    | bool b => exact ⟨_, rfl⟩
    | num q => exact ⟨_, rfl⟩
    | str s => exact ⟨_, rfl⟩
    | arr xs => exact ⟨_, rfl⟩
    | obj fields =>
      simp only [captureStatusTag, Json.as_object, Option.some_bind] at htag
      cases hs : getField fields "status" with
      | none =>
        exact ⟨"missing field status",
          by simp [SPN2CaptureStatus.deserialize, Json.as_object, hs]⟩
      | some tj =>
        rw [hs] at htag
        cases tj with
        | str s2 => simp [Json.as_str] at htag
        | null =>
          exact ⟨"invalid type: the tag field status must be a string",
            by simp [SPN2CaptureStatus.deserialize, Json.as_object, hs,
              Json.as_str]⟩
        | bool b2 =>
          exact ⟨"invalid type: the tag field status must be a string",
            by simp [SPN2CaptureStatus.deserialize, Json.as_object, hs,
              Json.as_str]⟩
        | num q =>
          exact ⟨"invalid type: the tag field status must be a string",
            by simp [SPN2CaptureStatus.deserialize, Json.as_object, hs,
              Json.as_str]⟩
        | arr xs =>
          exact ⟨"invalid type: the tag field status must be a string",
            by simp [SPN2CaptureStatus.deserialize, Json.as_object, hs,
              Json.as_str]⟩
        | obj fs =>
          exact ⟨"invalid type: the tag field status must be a string",
            by simp [SPN2CaptureStatus.deserialize, Json.as_object, hs,
              Json.as_str]⟩
  · intro fields res hs hres
    simp [SPN2CaptureStatus.deserialize, Json.as_object, hs, Json.as_str,
      reqStringListField, hres, asStringList, decodeStringList_map_str,
      except_bind_ok]

/-- Witness for claim C2: a status value outside the three known tags
fails decoding with the unknown-variant error. -/
theorem capture_status_dispatch_witness :
    SPN2CaptureStatus.deserialize (Json.obj [("status", Json.str "refused")])
      = Except.error
          "unknown variant refused, expected one of pending, error, success" :=
  capture_status_dispatch.2.1 (Json.obj [("status", Json.str "refused")])
    "refused" rfl (by decide) (by decide) (by decide)

/-- Claim C4 (amended): every failure of the four client methods is
returned as a value of the single type-erased error alias: transport
failures propagate the HTTP library error with its timeout flag, body
decode failures propagate the same library error type with the decode
flag, an unexpected HTTP status yields a boxed string error whose message
is the text unexpected response status followed by the status display (the
numeric code appears only inside that message text), and a timeout is
distinguished from a decode failure by inspecting the flags of the boxed
library error, not by its type. -/
theorem error_surface (f : TransportFailure) (st : Nat)
    (b : Except String Json) (m : String) :
    (request_capture_handle (.error f) =
      .error (.reqwestErr f.is_timeout false f.msg)) ∧
    (get_capture_status_handle (.error f) =
      .error (.reqwestErr f.is_timeout false f.msg)) ∧
    (get_user_status_handle (.error f) =
      .error (.reqwestErr f.is_timeout false f.msg)) ∧
    (get_system_status_handle (.error f) =
      .error (.reqwestErr f.is_timeout false f.msg)) ∧
    (st ≠ 200 → request_capture_handle (.ok ⟨st, b⟩) =
      .error (unexpectedStatusError st)) ∧
    (st ≠ 200 → get_capture_status_handle (.ok ⟨st, b⟩) =
      .error (unexpectedStatusError st)) ∧
    (st ≠ 200 → get_user_status_handle (.ok ⟨st, b⟩) =
      .error (unexpectedStatusError st)) ∧
    (st ≠ 200 → st ≠ 502 → get_system_status_handle (.ok ⟨st, b⟩) =
      .error (unexpectedStatusError st)) ∧
    (get_capture_status_handle (.ok ⟨200, .error m⟩) =
      .error (.reqwestErr false true m)) ∧
    (Error.timeoutFlag (.reqwestErr true false m) = true ∧
      Error.timeoutFlag (.reqwestErr false true m) = false) := by
  refine ⟨rfl, rfl, rfl, rfl, ?_, ?_, ?_, ?_, rfl, rfl, rfl⟩
  · intro h200
    simp [request_capture_handle, h200]
  · intro h200
    simp [get_capture_status_handle, h200]
  · intro h200
    simp [get_user_status_handle, h200]
  · intro h200 h502
    simp [get_system_status_handle, h200, h502]

/-- Witness for claim C4 (amended) at a concrete unexpected status. -/
theorem error_surface_witness :
    request_capture_handle (Except.ok ⟨429, Except.ok Json.null⟩) =
      Except.error (unexpectedStatusError 429) :=
  (error_surface ⟨false, ""⟩ 429 (Except.ok Json.null) "").2.2.2.2.1
    (by decide)

/-- Claim C4 counterexample: the transport-timeout error and the
body-decode error returned by get_capture_status are values of the same
concrete dynamic type inside the type-erased box (the HTTP library error
type), so a timeout is not distinguishable by type from a decode error;
and the error for the unexpected HTTP status 404 is a boxed message
string carrying the code only as text, not as a typed numeric field. -/
theorem error_surface_counterexample :
    get_capture_status_handle
        (Except.error ⟨true, "operation timed out"⟩) =
      Except.error (Error.reqwestErr true false "operation timed out") ∧
    get_capture_status_handle
        (Except.ok ⟨200, Except.error "EOF while parsing a value"⟩) =
      Except.error (Error.reqwestErr false true "EOF while parsing a value") ∧
    dynTypeName (Error.reqwestErr true false "operation timed out") =
      dynTypeName (Error.reqwestErr false true "EOF while parsing a value") ∧
    get_capture_status_handle (Except.ok ⟨404, Except.ok (Json.obj [])⟩) =
      Except.error
        (Error.boxedMsg "unexpected response status: 404 Not Found") :=
  ⟨rfl, rfl, rfl, rfl⟩

/-- Claim C7: the credentials never appear in logged, debug or trace
output: the debug rendering of the capture request of any successfully
constructed client is one fixed string in which the sensitive
Authorization value renders as the word Sensitive, and the complete logged
output of any sequence of client operations is identical for any two
credential pairs, so no information about the access key or secret
reaches any log. -/
theorem credentials_not_logged (k1 s1 k2 s2 : String) (t1 t2 : Duration)
    (b1 b2 : Except String Unit) (c1 c2 : SPN2Client)
    (h1 : SPN2Client.new k1 s1 t1 b1 = .ok c1)
    (h2 : SPN2Client.new k2 s2 t2 b2 = .ok c2)
    (ops : List Operation) :
    requestCaptureDebug c1 =
      "RequestBuilder method: POST, url: https://web.archive.org/save, headers: Authorization: Sensitive, Accept: \"application/json\"" ∧
    ops.map (loggedOutput c1) = ops.map (loggedOutput c2) := by
  have e1 := new_ok_headers k1 s1 t1 b1 c1 h1
  have e2 := new_ok_headers k2 s2 t2 b2 c2 h2
  have fixed : ∀ c : SPN2Client, ∀ k s : String,
      c.default_headers =
        [("Authorization", ⟨authHeaderString k s, true⟩),
         ("Accept", ⟨"application/json", false⟩)] →
      requestCaptureDebug c =
        "RequestBuilder method: POST, url: https://web.archive.org/save, headers: Authorization: Sensitive, Accept: \"application/json\"" := by
    intro c k s hc
    unfold requestCaptureDebug renderHeaders
    rw [hc]
    rfl
  refine ⟨fixed c1 k1 s1 e1, ?_⟩
  have hl : loggedOutput c1 = loggedOutput c2 := by
    funext op
    cases op with
    | requestCapture url p =>
        simp [loggedOutput, fixed c1 k1 s1 e1, fixed c2 k2 s2 e2]
    | getCaptureStatus job_id => rfl
    | getUserStatus now => rfl
    | getSystemStatus => rfl
  rw [hl]

/-- Witness for claim C7: two clients with different concrete credentials
produce identical logged output on a concrete operation sequence. -/
theorem credentials_not_logged_witness :
    [Operation.getSystemStatus,
     Operation.requestCapture "example.com" {}].map
      (loggedOutput
        ⟨[("Authorization", ⟨"LOW key1:secret1", true⟩),
          ("Accept", ⟨"application/json", false⟩)], ⟨5, 0⟩⟩) =
    [Operation.getSystemStatus,
     Operation.requestCapture "example.com" {}].map
      (loggedOutput
        ⟨[("Authorization", ⟨"LOW key2:secret2", true⟩),
          ("Accept", ⟨"application/json", false⟩)], ⟨5, 0⟩⟩) :=
  (credentials_not_logged "key1" "secret1" "key2" "secret2" ⟨5, 0⟩ ⟨5, 0⟩
    (.ok ()) (.ok ())
    ⟨[("Authorization", ⟨"LOW key1:secret1", true⟩),
      ("Accept", ⟨"application/json", false⟩)], ⟨5, 0⟩⟩
    ⟨[("Authorization", ⟨"LOW key2:secret2", true⟩),
      ("Accept", ⟨"application/json", false⟩)], ⟨5, 0⟩⟩
    rfl rfl
    [Operation.getSystemStatus,
     Operation.requestCapture "example.com" {}]).2

end Spn
